import Mathlib

/-!
Verification of the rehabilitation module of the prison-management service.

The development shallowly embeds the Python sources of
`modules/rehabilitation/app` (scoring service, recommendation service,
synthetic dataset generator, eligibility feature extraction) into Lean.
Python floats are modelled as exact rationals (`ℚ`) except where the code
applies the exponential function (the sigmoid calibration), which is
modelled over `ℝ`.  Random draws (`random.*`, `np.random.*`) are modelled
as explicit value streams passed to the generator: the Python generator
is a pure function of its seed, and every theorem below is quantified
over all streams, hence holds for the streams any seed produces.
-/

namespace PrisonMgmt

/-! ## Python numeric primitives -/

/-- Python `int(x)` applied to a float: truncation toward zero. -/
def pyInt (q : ℚ) : ℤ := if 0 ≤ q then ⌊q⌋ else ⌈q⌉

/-- Python `round(x, 2)`.  Python rounds the underlying binary float half
to even; the embedding uses exact decimal rounding (`round` = half up),
which agrees except on exact decimal ties, none of which affect a claim. -/
def round2 (q : ℚ) : ℚ := ((round (q * 100) : ℤ) : ℚ) / 100

/-- Python `round(x, 3)`, modelled like `round2`. -/
def round3 (q : ℚ) : ℚ := ((round (q * 1000) : ℤ) : ℚ) / 1000

/-- The `min(hi, max(lo, x))` clipping idiom used throughout the generator. -/
def clipQ (lo hi x : ℚ) : ℚ := min hi (max lo x)

/-- A draw of `np.random.normal(mu, sigma)`: `mu + sigma * eps` where `eps`
is a standard-normal draw taken from a stream.  Only the (full) support of
the draw matters for the claims, so `eps` ranges over all rationals. -/
def normalQ (mu sigma eps : ℚ) : ℚ := mu + sigma * eps

/-- Python `random.randint(lo, hi)` (inclusive both ends) driven by a raw
stream value `u`; the modulus keeps the result inside `[lo, hi]`. -/
def randint (lo hi : ℕ) (u : ℕ) : ℕ := lo + u % (hi + 1 - lo)

/-- Python `str(n).zfill(w)` for a natural number. -/
def zfill (w : ℕ) (n : ℕ) : String :=
  let s := toString n
  String.mk (List.replicate (w - s.length) '0') ++ s

/-! ## Scoring service (`app/services/scoring_service.py`)

`ScoringService._sigmoid` and `ScoringService._predict_statistical` are
closed-form real arithmetic; `ScoringService._predict_with_model` takes the
positive-class entry of the external classifier's probability vector. -/

/-- `ScoringService._sigmoid(x, shift, scale) = 1/(1 + exp(-scale*(x-shift)))`.
The Python `except` branch (float overflow) cannot occur over `ℝ`. -/
noncomputable def sigmoid (x shift scale : ℝ) : ℝ :=
  1 / (1 + Real.exp (-scale * (x - shift)))

/-- `ScoringService._predict_statistical` on the feature array
`[behavior_score, program_completion, disciplinary_score]`:
weighted combination `0.35 / 0.25 / 0.40` followed by
`_sigmoid(score, shift=0.5, scale=2.0)`. -/
noncomputable def predictStatistical (behavior programCompletion disciplinary : ℝ) : ℝ :=
  sigmoid ((behavior / 100) * 0.35
    + (min programCompletion 5 / 5) * 0.25
    + (disciplinary / 100) * 0.40) 0.5 2.0

/-- `ScoringService._predict_with_model`: `proba[1] if len(proba) > 1 else 0.5`
where `proba` is the external model's probability row.  (The Python
`except` branch falls back to `_predict_statistical`; over total functions
it is unreachable.) -/
noncomputable def predictWithModel (proba : List ℝ) : ℝ := proba.getD 1 (1 / 2)

/-! ## Eligibility assessment input (`app/schemas/dataset.py`,
`app/api/predictions.py::assess_rehab_eligibility`)

The raw request body: each field may be absent.  Pydantic validation of
`EligibilityAssessmentRequest` rejects the request when a required field
(`behavior_score`, `discipline_score`, `risk_score`) is missing; every
other field carries a schema default (ints default to 0) or is `Optional`
and replaced by `get_num(key, 0)` inside the handler.  Pydantic's
per-value range constraints (`ge`/`le`) concern present values, not
missingness, and are outside the scope of the claims. -/

structure RawEligibilityRequest where
  age : Option ℤ
  gender : Option String
  crime_type : Option String
  sentence_length_months : Option ℤ
  time_served_months : Option ℤ
  behavior_score : Option ℚ
  discipline_score : Option ℚ
  risk_score : Option ℚ
  programs_completed : Option ℤ
  programs_enrolled : Option ℤ
  total_attendance_rate : Option ℚ
  institutional_violations : Option ℤ
  total_incidents : Option ℤ
  points_deducted : Option ℤ
  has_substance_abuse : Option Bool
  has_mental_health_issues : Option Bool
  education_level : Option String
  prior_convictions : Option ℤ
  inmate_id : Option String
deriving DecidableEq

/-- Validation plus the 11-entry feature extraction of
`assess_rehab_eligibility` (predictions.py lines 101-124): a missing
required field is a validation error; missing optional numeric fields
become 0; `remaining_sentence = max(0, sentence_length - time_served)`. -/
def extractEligibilityFeatures (r : RawEligibilityRequest) : Except String (List ℚ) :=
  match r.behavior_score, r.discipline_score, r.risk_score with
  | some b, some d, some k =>
      let timeServed : ℚ := ((r.time_served_months.getD 0 : ℤ) : ℚ)
      let sentence : ℚ := ((r.sentence_length_months.getD 0 : ℤ) : ℚ)
      let remaining : ℚ := max 0 (sentence - timeServed)
      .ok [b, d, k,
        ((r.programs_completed.getD 0 : ℤ) : ℚ),
        r.total_attendance_rate.getD 0,
        timeServed, remaining,
        ((r.prior_convictions.getD 0 : ℤ) : ℚ),
        ((r.institutional_violations.getD 0 : ℤ) : ℚ),
        ((r.total_incidents.getD 0 : ℤ) : ℚ),
        ((r.points_deducted.getD 0 : ℤ) : ℚ)]
  | _, _, _ => .error ("validation error: missing required field")

/-! ## Realistic dataset generator
(`app/utils/realistic_dataset_generator.py`)

The generator is a pure function of its seed (both global RNGs are seeded
in `__init__`) and of the wall clock (`datetime.now()`).  Random draws are
modelled as explicit per-row value streams; Gaussian and uniform draws
appear as arbitrary rational stream values (their full support is what
matters for the claims), bounded draws (`randint`, `choice`) are clamped
into their range exactly as the library guarantees.  Calendar dates are
day numbers (`ℤ`); `datetime.now()` is the parameter `now`.  Free-text or
date-valued record fields that no claim mentions are omitted from child
records and noted at each structure. -/

structure CrimeProfile where
  name : String
  avg_sentence_months : ℚ
  substance_abuse : ℚ
  mental_health : ℚ
  violence_risk : ℚ
  education_need : ℚ
deriving DecidableEq, Inhabited

/-- `RealisticDatasetGenerator.CRIME_PROFILES`, in dictionary order. -/
def crimeProfiles : List CrimeProfile :=
  [⟨"drug_trafficking", 36, 0.9, 0.4, 0.3, 0.6⟩,
   ⟨"drug_possession", 18, 0.8, 0.5, 0.2, 0.5⟩,
   ⟨"assault", 24, 0.3, 0.6, 0.8, 0.4⟩,
   ⟨"robbery", 30, 0.4, 0.3, 0.6, 0.7⟩,
   ⟨"fraud", 20, 0.1, 0.2, 0.1, 0.3⟩,
   ⟨"burglary", 22, 0.5, 0.3, 0.4, 0.6⟩,
   ⟨"domestic_violence", 16, 0.5, 0.7, 0.9, 0.3⟩,
   ⟨"theft", 12, 0.4, 0.2, 0.2, 0.5⟩]

def facilitiesList : List String :=
  ["Colombo_Main", "Kandy_Central", "Galle_Regional", "Jaffna_North", "Anuradhapura_Central"]

def zonesList : List String :=
  ["Western", "Central", "Southern", "Northern", "North_Central"]

def educationLevels : List String :=
  ["Elementary", "High School", "GED", "Some College", "College"]

def cellBlocks : List String := ["A", "B", "C", "D"]

/-- One row of the `inmate_profiles` table (all fields of the source
record dict; dates are day numbers). -/
structure InmateProfile where
  inmate_id : String
  booking_number : String
  first_name : String
  last_name : String
  date_of_birth : ℤ
  gender : String
  age : ℤ
  education_level : String
  sentence_length_months : ℤ
  time_served_months : ℤ
  remaining_sentence_months : ℤ
  crime_type : String
  security_level : String
  facility : String
  block : String
  cell_number : String
  behavior_score : ℚ
  discipline_score : ℚ
  risk_score : ℚ
  prior_convictions : ℤ
  institutional_violations : ℤ
  has_substance_abuse : Bool
  has_mental_health_issues : Bool
  requires_medical_attention : Bool
  programs_completed : ℤ
  programs_enrolled : ℤ
  total_attendance_rate : ℚ
  admission_date : ℤ
  parole_eligibility_date : Option ℤ
  zone : String
deriving DecidableEq, Inhabited

/-- The random draws consumed by one iteration of
`generate_inmate_profiles`, as per-row streams. -/
structure ProfileRng where
  crimeIdx : ℕ → ℕ
  bookingU : ℕ → ℕ
  ageEps : ℕ → ℚ
  genderU : ℕ → ℚ
  sentenceEps : ℕ → ℚ
  servedU : ℕ → ℕ
  riskEps : ℕ → ℚ
  behaviorEps : ℕ → ℚ
  disciplineEps : ℕ → ℚ
  substanceU : ℕ → ℚ
  mentalU : ℕ → ℚ
  programsU : ℕ → ℕ
  enrolledU : ℕ → ℕ
  attendEps : ℕ → ℚ
  priorsU : ℕ → ℚ
  violationsU : ℕ → ℚ
  educationU : ℕ → ℕ
  securityU : ℕ → ℚ
  facilityU : ℕ → ℕ
  blockU : ℕ → ℕ
  cellU : ℕ → ℕ
  medicalU : ℕ → ℚ

/-- `np.random.choice(["Male","Female"], p=[0.92, 0.08])` by cumulative
threshold on a uniform draw. -/
def chooseGender (u : ℚ) : String := if u < 0.92 then "Male" else "Female"

/-- `np.random.choice(["Minimum","Medium","Maximum"], p=[0.3,0.5,0.2])`. -/
def chooseSecurity (u : ℚ) : String :=
  if u < 0.3 then "Minimum" else if u < 0.8 then "Medium" else "Maximum"

/-- `np.random.choice([0..5], p=[0.3,0.3,0.2,0.1,0.07,0.03])`. -/
def choosePriors (u : ℚ) : ℤ :=
  if u < 0.3 then 0 else if u < 0.6 then 1 else if u < 0.8 then 2
  else if u < 0.9 then 3 else if u < 0.97 then 4 else 5

/-- `np.random.choice([0..4], p=[0.4,0.3,0.2,0.07,0.03])`. -/
def chooseViolations (u : ℚ) : ℤ :=
  if u < 0.4 then 0 else if u < 0.7 then 1 else if u < 0.9 then 2
  else if u < 0.97 then 3 else 4

/-- The crime profile drawn for row `i` (`random.choice` over the
catalog). -/
def crimeAt (g : ProfileRng) (i : ℕ) : CrimeProfile :=
  crimeProfiles.getD (g.crimeIdx i % crimeProfiles.length) default

/-- Sentence length: `int(np.random.normal(base, base*0.3))` clipped to
`[6, 240]`. -/
def sentenceAt (g : ProfileRng) (i : ℕ) : ℤ :=
  max 6 (min 240 (pyInt
    (normalQ (crimeAt g i).avg_sentence_months
      ((crimeAt g i).avg_sentence_months * 0.3) (g.sentenceEps i))))

/-- Time served: `random.randint(1, sentence_months)`. -/
def servedAt (g : ProfileRng) (i : ℕ) : ℤ :=
  1 + ((g.servedU i % (sentenceAt g i).toNat : ℕ) : ℤ)

/-- `time_factor = time_served / sentence_months`. -/
def timeFactorAt (g : ProfileRng) (i : ℕ) : ℚ :=
  (servedAt g i : ℚ) / (sentenceAt g i : ℚ)

/-- Risk score before rounding:
`min(0.95, max(0.05, 0.3 + violence_risk*0.4 + N(0, 0.15)))`. -/
def riskRawAt (g : ProfileRng) (i : ℕ) : ℚ :=
  min 0.95 (max 0.05
    (0.3 + (crimeAt g i).violence_risk * 0.4 + normalQ 0 0.15 (g.riskEps i)))

/-- Behavior score before rounding:
`min(100, max(0, 40 + time_factor*30 + N(0,15)))`. -/
def behaviorRawAt (g : ProfileRng) (i : ℕ) : ℚ :=
  min 100 (max 0 (40 + timeFactorAt g i * 30 + normalQ 0 15 (g.behaviorEps i)))

/-- Discipline score before rounding:
`min(100, max(0, behavior + N(0,10)))` (uses the unrounded behavior). -/
def disciplineRawAt (g : ProfileRng) (i : ℕ) : ℚ :=
  min 100 (max 0 (behaviorRawAt g i + normalQ 0 10 (g.disciplineEps i)))

/-- One iteration of the `generate_inmate_profiles` loop body
(source lines 90-170). -/
def makeProfile (now : ℤ) (g : ProfileRng) (i : ℕ) : InmateProfile :=
  let crime := crimeAt g i
  let age : ℤ := max 18 (min 70 (pyInt (normalQ 35 12 (g.ageEps i))))
  let sentence := sentenceAt g i
  let served := servedAt g i
  let remaining := sentence - served
  let facilityIdx := g.facilityU i % facilitiesList.length
  { inmate_id := "INM" ++ zfill 6 i
    booking_number := "BK" ++ toString (randint 2020 2025 (g.bookingU i)) ++ zfill 5 i
    first_name := "FirstName" ++ toString i
    last_name := "LastName" ++ toString i
    date_of_birth := now - age * 365
    gender := chooseGender (g.genderU i)
    age := age
    education_level := educationLevels.getD (g.educationU i % educationLevels.length) "Elementary"
    sentence_length_months := sentence
    time_served_months := served
    remaining_sentence_months := remaining
    crime_type := crime.name
    security_level := chooseSecurity (g.securityU i)
    facility := facilitiesList.getD facilityIdx ("Colombo_Main")
    block := cellBlocks.getD (g.blockU i % cellBlocks.length) "A"
    cell_number := toString (randint 1 50 (g.cellU i))
    behavior_score := round2 (behaviorRawAt g i)
    discipline_score := round2 (disciplineRawAt g i)
    risk_score := round3 (riskRawAt g i)
    prior_convictions := choosePriors (g.priorsU i)
    institutional_violations := chooseViolations (g.violationsU i)
    has_substance_abuse := g.substanceU i < crime.substance_abuse
    has_mental_health_issues := g.mentalU i < crime.mental_health
    requires_medical_attention := g.medicalU i < 0.15
    programs_completed := pyInt (timeFactorAt g i * ((randint 0 5 (g.programsU i) : ℕ) : ℚ))
    programs_enrolled := ((randint 0 3 (g.enrolledU i) : ℕ) : ℤ)
    total_attendance_rate := round3 (min 1 (max 0 (0.5 + timeFactorAt g i * 0.3 + g.attendEps i)))
    admission_date := now - served * 30
    -- `timedelta(days=remaining*30*0.7)`: an exact whole number of days
    -- (30*0.7 rounds to exactly 21.0 as a binary double).
    parole_eligibility_date := if 6 < remaining then some (now + 21 * remaining) else none
    zone := zonesList.getD facilityIdx ("Western") }

/-- `generate_inmate_profiles(n)`. -/
def generateInmateProfiles (n : ℕ) (g : ProfileRng) (now : ℤ) : List InmateProfile :=
  (List.range n).map (makeProfile now g)

/-- Normalize the three wall-clock-derived date fields of a profile; two
profiles agree on every other field iff their normalizations are equal. -/
def stripDates (p : InmateProfile) : InmateProfile :=
  { p with date_of_birth := 0, admission_date := 0, parole_eligibility_date := none }

/-- The violence-risk weight attached to a crime type in the catalog. -/
def violenceRiskOf (c : String) : ℚ :=
  ((crimeProfiles.find? (fun cp => cp.name == c)).getD default).violence_risk

/-- Python `round(x, 1)`, modelled like `round2`. -/
def round1 (q : ℚ) : ℚ := ((round (q * 10) : ℤ) : ℚ) / 10

/-- Python `random.uniform(lo, hi) = lo + (hi-lo)*random()`. -/
def uniformQ (lo hi u : ℚ) : ℚ := lo + (hi - lo) * u

/-! ### Behavioral incident records (`generate_behavioral_records`) -/

def incidentTypes : List String :=
  ["violence", "disobedience", "theft", "substance_use", "rule_violation", "contraband"]

def disciplinaryActions : List String :=
  ["verbal_warning", "written_warning", "loss_of_privileges",
   "solitary_confinement", "program_suspension"]

/-- Severity choice, probabilities conditioned on `risk_score > 0.7`
(`p=[0.1,0.3,0.4,0.2]` against `p=[0.4,0.4,0.15,0.05]`), by cumulative
threshold on a uniform draw. -/
def chooseSeverity (risk u : ℚ) : String :=
  if 0.7 < risk then
    if u < 0.1 then "minor" else if u < 0.4 then "moderate"
    else if u < 0.8 then "severe" else "critical"
  else
    if u < 0.4 then "minor" else if u < 0.8 then "moderate"
    else if u < 0.95 then "severe" else "critical"

/-- The severity→points table `{"minor":5,"moderate":15,"severe":30,"critical":50}`. -/
def pointsMap (s : String) : ℤ :=
  if s = "minor" then 5 else if s = "moderate" then 15
  else if s = "severe" then 30 else 50

/-- Streams for the behavioral-record generator: the Poisson count draw
(`np.random.poisson(avg * risk_score)`, support all of ℕ, modelled as the
raw stream value) and the per-incident field draws. -/
structure BehRng where
  countU : ℕ → ℕ
  sevU : ℕ → ℕ → ℚ
  typeU : ℕ → ℕ → ℕ
  typeU2 : ℕ → ℕ → ℕ
  actionU : ℕ → ℕ → ℕ
  resolvedU : ℕ → ℕ → ℚ

/-- One behavioral record (incident and resolution dates — wall-clock
offsets no claim mentions — are omitted). -/
structure BehavioralRecord where
  record_id : String
  inmate_id : String
  incident_type : String
  severity : String
  description : String
  disciplinary_action : String
  points_deducted : ℤ
  resolved : Bool
deriving DecidableEq, Inhabited

def makeBehRecord (g : BehRng) (i : ℕ) (m : InmateProfile) (rid k : ℕ) : BehavioralRecord :=
  let severity := chooseSeverity m.risk_score (g.sevU i k)
  { record_id := "BEH" ++ zfill 6 rid
    inmate_id := m.inmate_id
    incident_type := incidentTypes.getD (g.typeU i k % incidentTypes.length) ("violence")
    severity := severity
    description := severity.capitalize ++ " incident of "
      ++ incidentTypes.getD (g.typeU2 i k % incidentTypes.length) ("violence")
    disciplinary_action :=
      if severity = "severe" ∨ severity = "critical" then
        disciplinaryActions.getD (g.actionU i k % disciplinaryActions.length) ("verbal_warning")
      else "verbal_warning"
    points_deducted := pointsMap severity
    resolved := g.resolvedU i k < 0.8 }

def goBehavioral (g : BehRng) : ℕ → ℕ → List InmateProfile → List BehavioralRecord
  | _, _, [] => []
  | i, rid, m :: rest =>
      let cnt := min (g.countU i) 15
      (List.range cnt).map (fun k => makeBehRecord g i m (rid + k) k)
        ++ goBehavioral g (i + 1) (rid + cnt) rest

/-- `generate_behavioral_records(inmate_df)`: per inmate a Poisson-drawn
incident count capped at 15, each incident referencing that inmate's id. -/
def generateBehavioralRecords (inmates : List InmateProfile) (g : BehRng) :
    List BehavioralRecord :=
  goBehavioral g 0 0 inmates

/-! ### Program outcomes (`generate_program_outcomes`) -/

/-- `RealisticDatasetGenerator.PROGRAMS` (name, type), dictionary order. -/
def programsCatalog : List (String × String) :=
  [("substance_abuse_intensive", "Substance Abuse"),
   ("substance_abuse_standard", "Substance Abuse"),
   ("mental_health_therapy", "Mental Health"),
   ("anger_management", "Behavioral"),
   ("cognitive_behavioral", "Behavioral"),
   ("vocational_carpentry", "Vocational"),
   ("vocational_welding", "Vocational"),
   ("vocational_it", "Vocational"),
   ("education_basic", "Education"),
   ("education_ged", "Education"),
   ("family_counseling", "Counseling")]

/-- Status choice conditioned on how long ago the program started. -/
def chooseStatus (daysAgo : ℕ) (u : ℚ) : String :=
  if 180 < daysAgo then (if u < 0.7 then "completed" else "dropped_out")
  else if 90 < daysAgo then
    (if u < 0.5 then "in_progress" else if u < 0.9 then "completed" else "dropped_out")
  else (if u < 0.4 then "enrolled" else "in_progress")

structure OutRng where
  progU : ℕ → ℕ → ℕ
  daysU : ℕ → ℕ → ℕ
  statusU : ℕ → ℕ → ℚ
  complR : ℕ → ℕ → ℚ
  attendR : ℕ → ℕ → ℚ
  certU : ℕ → ℕ → ℚ

/-- One program outcome (start/end dates, the performance and
behavioral-improvement draws and the instructor note are omitted — no
claim mentions them). -/
structure ProgramOutcome where
  outcome_id : String
  inmate_id : String
  program_name : String
  program_type : String
  status : String
  completion_percentage : ℚ
  attendance_rate : ℚ
  certificate_awarded : Bool
deriving DecidableEq, Inhabited

def makeOutcomeRecord (g : OutRng) (i : ℕ) (m : InmateProfile) (oid k : ℕ) : ProgramOutcome :=
  let pr := programsCatalog.getD (g.progU i k % programsCatalog.length) default
  let daysAgo := randint 30 (m.time_served_months.toNat * 30) (g.daysU i k)
  let status := chooseStatus daysAgo (g.statusU i k)
  let completionPct : ℚ :=
    if status = "completed" then 100
    else if status = "in_progress" then 30 + g.complR i k * 60
    else if status = "dropped_out" then g.complR i k * 50
    else 0
  let attendance : ℚ :=
    if status = "completed" then 0.7 + g.attendR i k * 0.3
    else if status = "in_progress" then 0.6 + g.attendR i k * 0.3
    else if status = "dropped_out" then 0.2 + g.attendR i k * 0.4
    else 0
  { outcome_id := "OUT" ++ zfill 6 oid
    inmate_id := m.inmate_id
    program_name := pr.1
    program_type := pr.2
    status := status
    completion_percentage := round2 completionPct
    attendance_rate := round3 attendance
    certificate_awarded := if status = "completed" then g.certU i k < 0.8 else false }

def goOutcomes (g : OutRng) : ℕ → ℕ → List InmateProfile → List ProgramOutcome
  | _, _, [] => []
  | i, oid, m :: rest =>
      let total := (m.programs_completed + m.programs_enrolled).toNat
      (List.range total).map (fun k => makeOutcomeRecord g i m (oid + k) k)
        ++ goOutcomes g (i + 1) (oid + total) rest

/-- `generate_program_outcomes(inmate_df)`: one outcome per enrolled or
completed program of each inmate (zero programs ⇒ the inmate is skipped). -/
def generateProgramOutcomes (inmates : List InmateProfile) (g : OutRng) :
    List ProgramOutcome :=
  goOutcomes g 0 0 inmates

/-! ### Counseling notes (`generate_counseling_notes`) -/

def positiveTemplates : List String :=
  ["Inmate shows excellent progress. Engaged positively in session. Demonstrates good coping skills.",
   "Very cooperative today. Discussed future goals and employment. Showing reduced anxiety.",
   "Strong session. Inmate is taking responsibility for actions. Working well on rehabilitation goals.",
   "Positive attitude observed. Making concrete plans for release. Family relationships improving.",
   "Excellent engagement. Completed all assigned exercises. Ready to progress to next phase."]

def neutralTemplates : List String :=
  ["Standard session. Inmate participated adequately. No significant changes noted.",
   "Discussed daily routine and challenges. Maintaining stable behavior. Continue monitoring.",
   "Regular check-in completed. No major concerns. Progressing as expected.",
   "Session focused on routine issues. Inmate cooperative but reserved. Standard progress.",
   "Covered program requirements. Inmate understands expectations. Continue current plan."]

def negativeTemplates : List String :=
  ["Difficult session. Inmate resistant to feedback. Showing signs of frustration and anger.",
   "Poor engagement today. Refusing to discuss important issues. May need intervention.",
   "Concerning behavior observed. Inmate withdrew from conversation. Risk factors present.",
   "Minimal cooperation. Discussed rule violations. Appears unmotivated for change.",
   "Challenging session. Inmate defensive and hostile. Recommend increased supervision."]

def sessionTypes : List String := ["individual", "group", "crisis", "family"]

def durationChoices : List ℤ := [30, 45, 60, 90]

/-- Sentiment choice conditioned on the behavior-score tier. -/
def chooseSentiment (behavior u : ℚ) : String :=
  if 70 < behavior then (if u < 0.7 then "positive" else "neutral")
  else if 40 < behavior then
    (if u < 0.3 then "positive" else if u < 0.8 then "neutral" else "negative")
  else (if u < 0.3 then "neutral" else "negative")

structure CounselRng where
  sentU : ℕ → ℕ → ℚ
  noteU : ℕ → ℕ → ℕ
  counselorU : ℕ → ℕ → ℕ
  sessionU : ℕ → ℕ → ℕ
  durationU : ℕ → ℕ → ℕ
  ratingU : ℕ → ℕ → ℚ

/-- One counseling note (session dates and the `random.sample`-drawn risk
indicator list are omitted — no claim mentions them). -/
structure CounselingNote where
  note_id : String
  inmate_id : String
  counselor_id : String
  session_type : String
  duration_minutes : ℤ
  notes : String
  sentiment : String
  progress_rating : ℚ
deriving DecidableEq, Inhabited

def makeCounselingNote (g : CounselRng) (i : ℕ) (m : InmateProfile) (nid k : ℕ) :
    CounselingNote :=
  let sentiment := chooseSentiment m.behavior_score (g.sentU i k)
  let notes :=
    if sentiment = "positive" then
      positiveTemplates.getD (g.noteU i k % positiveTemplates.length) ("")
    else if sentiment = "neutral" then
      neutralTemplates.getD (g.noteU i k % neutralTemplates.length) ("")
    else negativeTemplates.getD (g.noteU i k % negativeTemplates.length) ("")
  let rating : ℚ :=
    if sentiment = "positive" then 6 + g.ratingU i k * 4
    else if sentiment = "neutral" then 4 + g.ratingU i k * 4
    else 1 + g.ratingU i k * 4
  { note_id := "NOTE" ++ zfill 6 nid
    inmate_id := m.inmate_id
    counselor_id := "COUN" ++ zfill 3 (randint 1 20 (g.counselorU i k))
    session_type := sessionTypes.getD (g.sessionU i k % sessionTypes.length) ("individual")
    duration_minutes := durationChoices.getD (g.durationU i k % durationChoices.length) 30
    notes := notes
    sentiment := sentiment
    progress_rating := round1 rating }

def goCounseling (g : CounselRng) (avg : ℕ) : ℕ → ℕ → List InmateProfile → List CounselingNote
  | _, _, [] => []
  | i, nid, m :: rest =>
      let num := if m.has_mental_health_issues then (pyInt ((avg : ℚ) * 1.5)).toNat else avg
      (List.range num).map (fun k => makeCounselingNote g i m (nid + k) k)
        ++ goCounseling g avg (i + 1) (nid + num) rest

/-- `generate_counseling_notes(inmate_df, avg_per_inmate)`: `avg` sessions
per inmate, `int(avg*1.5)` for inmates with mental-health issues. -/
def generateCounselingNotes (inmates : List InmateProfile) (g : CounselRng) (avg : ℕ) :
    List CounselingNote :=
  goCounseling g avg 0 0 inmates

/-! ### Early release assessments (`generate_early_release_data`) -/

/-- One early-release assessment (assessment and approval dates, victim
impact, community support and approver — independent draws no claim
mentions — are omitted). -/
structure EarlyReleaseRecord where
  record_id : String
  inmate_id : String
  eligibility_score : ℚ
  recommendation : String
  behavior_score : ℚ
  program_completion_count : ℤ
  discipline_score : ℚ
  time_served_percentage : ℚ
  risk_assessment : ℚ
deriving DecidableEq, Inhabited

/-- The weighted eligibility formula (source lines 409-421):
behavior 30%, discipline 25%, program completion (capped at 3) 20%,
inverse risk 15%, time-served ratio (capped at 1) 10%. -/
def erRawScore (m : InmateProfile) : ℚ :=
  m.behavior_score / 100 * 0.3
  + m.discipline_score / 100 * 0.25
  + min 1 ((m.programs_completed : ℚ) / 3) * 0.2
  + (1 - m.risk_score) * 0.15
  + min 1 ((m.time_served_months : ℚ) / (m.sentence_length_months : ℚ)) * 0.1

/-- One assessment: the formula plus the noise draw `eps`
(`np.random.normal(0, 0.05)`), clipped to `[0,1]`; the stored score is
rounded to 3 decimals while the recommendation thresholds the unrounded
clipped score. -/
def assessEarlyRelease (m : InmateProfile) (eps : ℚ) (rid : ℕ) : EarlyReleaseRecord :=
  let tsPct : ℚ := (m.time_served_months : ℚ) / (m.sentence_length_months : ℚ)
  let score := min 1 (max 0 (erRawScore m + eps))
  { record_id := "ER" ++ zfill 6 rid
    inmate_id := m.inmate_id
    eligibility_score := round3 score
    recommendation :=
      if 0.7 < score then "eligible"
      else if 0.5 < score then "pending_review"
      else "not_eligible"
    behavior_score := m.behavior_score
    program_completion_count := m.programs_completed
    discipline_score := m.discipline_score
    time_served_percentage := round3 tsPct
    risk_assessment := m.risk_score }

def goEarlyRelease (noise : ℕ → ℚ) : ℕ → List InmateProfile → List EarlyReleaseRecord
  | _, [] => []
  | rid, m :: rest =>
      if m.time_served_months < 6 then goEarlyRelease noise rid rest
      else assessEarlyRelease m (normalQ 0 0.05 (noise rid)) rid
        :: goEarlyRelease noise (rid + 1) rest

/-- `generate_early_release_data(inmate_df)`: inmates with
`time_served_months < 6` are skipped; each other inmate yields exactly one
assessment. -/
def generateEarlyReleaseData (inmates : List InmateProfile) (noise : ℕ → ℚ) :
    List EarlyReleaseRecord :=
  goEarlyRelease noise 0 inmates

/-! ### Industrial training records (`generate_industrial_training`) -/

structure TrainingProgram where
  name : String
  skill_levels : List String
  hours : ℕ
  demand : String
deriving DecidableEq, Inhabited

def trainingCatalog : List TrainingProgram :=
  [⟨"carpentry", ["beginner", "intermediate", "advanced"], 240, "high"⟩,
   ⟨"welding", ["beginner", "intermediate", "advanced"], 200, "high"⟩,
   ⟨"plumbing", ["beginner", "intermediate"], 180, "medium"⟩,
   ⟨"electrical", ["beginner", "intermediate", "advanced"], 260, "high"⟩,
   ⟨"automotive", ["beginner", "intermediate"], 220, "medium"⟩,
   ⟨"it_basics", ["beginner", "intermediate"], 160, "high"⟩,
   ⟨"agriculture", ["beginner", "intermediate"], 180, "medium"⟩,
   ⟨"culinary", ["beginner", "intermediate"], 200, "medium"⟩]

structure TrainRng where
  partU : ℕ → ℚ
  numU : ℕ → ℕ
  progU : ℕ → ℕ → ℕ
  skillU : ℕ → ℕ → ℕ
  hoursR : ℕ → ℕ → ℚ
  complU : ℕ → ℕ → ℚ
  perfEps : ℕ → ℕ → ℚ

/-- One training record (start/end dates omitted — no claim mentions
them). -/
structure TrainingRecord where
  training_id : String
  inmate_id : String
  training_program : String
  skill_level : String
  hours_completed : ℚ
  certification_earned : Bool
  performance_rating : ℚ
  employment_potential : String
  industry_demand : String
  instructor_feedback : String
deriving DecidableEq, Inhabited

def makeTrainingRecord (g : TrainRng) (i : ℕ) (m : InmateProfile) (tid k : ℕ) :
    TrainingRecord :=
  let pr := trainingCatalog.getD (g.progU i k % trainingCatalog.length) default
  let skill := pr.skill_levels.getD (g.skillU i k % pr.skill_levels.length) ("beginner")
  let hoursCompleted : ℚ :=
    if 60 < m.behavior_score then uniformQ 0.6 1.0 (g.hoursR i k) * (pr.hours : ℚ)
    else uniformQ 0.2 0.6 (g.hoursR i k) * (pr.hours : ℚ)
  let completed : Bool :=
    if 60 < m.behavior_score then g.complU i k < 0.7 else g.complU i k < 0.3
  let perf : ℚ := min 10 (max 1 (4 + m.behavior_score / 100 * 6 + normalQ 0 1 (g.perfEps i k)))
  { training_id := "TRN" ++ zfill 6 tid
    inmate_id := m.inmate_id
    training_program := pr.name
    skill_level := skill
    hours_completed := round1 hoursCompleted
    certification_earned := completed && decide (6 < perf)
    performance_rating := round1 perf
    employment_potential := if 7 < perf then "high" else if 4 < perf then "medium" else "low"
    industry_demand := pr.demand
    instructor_feedback :=
      (if 7 < perf then "Excellent" else if 4 < perf then "Good" else "Needs improvement")
        ++ " performance in " ++ pr.name }

def goTraining (g : TrainRng) : ℕ → ℕ → List InmateProfile → List TrainingRecord
  | _, _, [] => []
  | i, tid, m :: rest =>
      if g.partU i < 0.3 then
        let num := randint 1 3 (g.numU i)
        (List.range num).map (fun k => makeTrainingRecord g i m (tid + k) k)
          ++ goTraining g (i + 1) (tid + num) rest
      else goTraining g (i + 1) tid rest

/-- `generate_industrial_training(inmate_df)`: 30% participation, 1-3
records per participating inmate. -/
def generateIndustrialTraining (inmates : List InmateProfile) (g : TrainRng) :
    List TrainingRecord :=
  goTraining g 0 0 inmates

/-! ### Home leave records (`generate_home_leave_records`) -/

def leaveTypes : List String := ["emergency", "family_visit", "medical", "earned"]

/-- Approval-status choice conditioned on the behavior-score tier. -/
def chooseApproval (behavior u : ℚ) : String :=
  if 75 < behavior then (if u < 0.3 then "approved" else "completed")
  else if 60 < behavior then
    (if u < 0.4 then "approved" else if u < 0.6 then "denied" else "completed")
  else (if u < 0.6 then "denied" else "pending")

structure HLRng where
  numU : ℕ → ℕ
  typeU : ℕ → ℕ → ℕ
  statusU : ℕ → ℕ → ℚ
  durU : ℕ → ℕ → ℕ
  returnU : ℕ → ℕ → ℚ
  incidentU : ℕ → ℕ → ℚ

/-- One home-leave record (request/start/end/approval dates, approver,
reason and notes strings omitted — no claim mentions them). -/
structure HomeLeaveRecord where
  leave_id : String
  inmate_id : String
  leave_type : String
  duration_days : ℤ
  approval_status : String
  returned_on_time : Option Bool
  incident_during_leave : Bool
deriving DecidableEq, Inhabited

def makeHomeLeaveRecord (g : HLRng) (i : ℕ) (m : InmateProfile) (lid k : ℕ) :
    HomeLeaveRecord :=
  let leaveType := leaveTypes.getD (g.typeU i k % leaveTypes.length) ("emergency")
  let status := chooseApproval m.behavior_score (g.statusU i k)
  let duration : ℤ :=
    if status = "approved" ∨ status = "completed" then
      (if leaveType = "earned" then ((randint 2 7 (g.durU i k) : ℕ) : ℤ)
       else ((randint 1 3 (g.durU i k) : ℕ) : ℤ))
    else ((randint 2 7 (g.durU i k) : ℕ) : ℤ)
  { leave_id := "LEAVE" ++ zfill 6 lid
    inmate_id := m.inmate_id
    leave_type := leaveType
    duration_days := duration
    approval_status := status
    returned_on_time :=
      if status = "approved" ∨ status = "completed" then
        some (decide (g.returnU i k < 0.95))
      else none
    incident_during_leave :=
      if status = "approved" ∨ status = "completed" then g.incidentU i k < 0.05
      else false }

/-- Number of leaves: behavior > 80 ⇒ `randint(1,4)`, behavior > 60 ⇒
`randint(0,2)`, else `randint(0,1)`. -/
def homeLeaveCount (g : HLRng) (i : ℕ) (m : InmateProfile) : ℕ :=
  if 80 < m.behavior_score then randint 1 4 (g.numU i)
  else if 60 < m.behavior_score then randint 0 2 (g.numU i)
  else randint 0 1 (g.numU i)

def goHomeLeave (g : HLRng) : ℕ → ℕ → List InmateProfile → List HomeLeaveRecord
  | _, _, [] => []
  | i, lid, m :: rest =>
      if m.behavior_score < 50 then goHomeLeave g (i + 1) lid rest
      else
        let num := homeLeaveCount g i m
        (List.range num).map (fun k => makeHomeLeaveRecord g i m (lid + k) k)
          ++ goHomeLeave g (i + 1) (lid + num) rest

/-- `generate_home_leave_records(inmate_df)`: inmates with
`behavior_score < 50` are skipped. -/
def generateHomeLeaveRecords (inmates : List InmateProfile) (g : HLRng) :
    List HomeLeaveRecord :=
  goHomeLeave g 0 0 inmates

/-! ### Rehab stations (`generate_rehab_stations`): fixed reference rows,
only `current_occupancy` is drawn. -/

structure RehabStation where
  station_id : String
  station_name : String
  location : String
  zone : String
  capacity : ℤ
  current_occupancy : ℤ
  facility_type : String
  specializations : String
  security_level : String
  available_programs : String
  staff_count : ℤ
  rating : ℚ
deriving DecidableEq, Inhabited

def generateRehabStations (occU : ℕ → ℕ) : List RehabStation :=
  [{ station_id := "RS001", station_name := "Colombo Rehabilitation Center",
     location := "Colombo", zone := "Western", capacity := 200,
     current_occupancy := ((randint 150 200 (occU 0) : ℕ) : ℤ), facility_type := "mixed",
     specializations := "substance_abuse, mental_health, vocational",
     security_level := "Medium",
     available_programs := "substance_abuse_intensive, mental_health_therapy, vocational_carpentry, education_ged",
     staff_count := 45, rating := 4.2 },
   { station_id := "RS002", station_name := "Kandy Vocational Center",
     location := "Kandy", zone := "Central", capacity := 150,
     current_occupancy := ((randint 100 150 (occU 1) : ℕ) : ℤ), facility_type := "vocational",
     specializations := "vocational, education", security_level := "Minimum",
     available_programs := "vocational_carpentry, vocational_welding, vocational_it, education_basic",
     staff_count := 30, rating := 4.5 },
   { station_id := "RS003", station_name := "Galle Mental Health Unit",
     location := "Galle", zone := "Southern", capacity := 100,
     current_occupancy := ((randint 70 100 (occU 2) : ℕ) : ℤ), facility_type := "mental_health",
     specializations := "mental_health, counseling", security_level := "Medium",
     available_programs := "mental_health_therapy, cognitive_behavioral, family_counseling",
     staff_count := 35, rating := 4.3 },
   { station_id := "RS004", station_name := "Jaffna Substance Abuse Center",
     location := "Jaffna", zone := "Northern", capacity := 120,
     current_occupancy := ((randint 80 120 (occU 3) : ℕ) : ℤ), facility_type := "substance_abuse",
     specializations := "substance_abuse", security_level := "Medium",
     available_programs := "substance_abuse_intensive, substance_abuse_standard, counseling",
     staff_count := 28, rating := 4.0 },
   { station_id := "RS005", station_name := "Anuradhapura Education Center",
     location := "Anuradhapura", zone := "North_Central", capacity := 180,
     current_occupancy := ((randint 120 180 (occU 4) : ℕ) : ℤ), facility_type := "education",
     specializations := "education, behavioral", security_level := "Minimum",
     available_programs := "education_basic, education_ged, anger_management",
     staff_count := 32, rating := 4.4 }]

/-! ### Dataset assembler (`generate_all_datasets`) -/

structure AllRng where
  profile : ProfileRng
  behavioral : BehRng
  outcomes : OutRng
  counseling : CounselRng
  earlyNoise : ℕ → ℚ
  training : TrainRng
  homeLeave : HLRng
  stationOccU : ℕ → ℕ

structure Datasets where
  inmate_profiles : List InmateProfile
  behavioral_records : List BehavioralRecord
  program_outcomes : List ProgramOutcome
  counseling_notes : List CounselingNote
  early_release_data : List EarlyReleaseRecord
  industrial_training : List TrainingRecord
  home_leave_records : List HomeLeaveRecord
  rehab_stations : List RehabStation

/-- `generate_all_datasets(n_inmates)`: the profile table is generated
first; every child generator consumes that table. -/
def generateAllDatasets (n : ℕ) (g : AllRng) (now : ℤ) : Datasets :=
  let inmates := generateInmateProfiles n g.profile now
  { inmate_profiles := inmates
    behavioral_records := generateBehavioralRecords inmates g.behavioral
    program_outcomes := generateProgramOutcomes inmates g.outcomes
    counseling_notes := generateCounselingNotes inmates g.counseling 8
    early_release_data := generateEarlyReleaseData inmates g.earlyNoise
    industrial_training := generateIndustrialTraining inmates g.training
    home_leave_records := generateHomeLeaveRecords inmates g.homeLeave
    rehab_stations := generateRehabStations g.stationOccU }

/-! ## Recommendation service (`app/services/recommendation_service.py`) -/

/-- Python `str.lower()`, modelled on the character list (it agrees with
the library function on the ASCII suitability-group names). -/
def pyLower (s : String) : String := String.mk (s.data.map Char.toLower)

/-- The fields of a `RecommendationRequest` the service reads: the three
profile-feature dictionary entries it looks up, the suitability group and
the risk score. -/
structure RecRequest where
  inmateId : String
  pfCompletion : Option ℚ
  pfAttendance : Option ℚ
  pfBehavioral : Option ℚ
  suitabilityGroup : String
  riskScore : ℚ
deriving DecidableEq

/-- One entry of `RecommendationService.PROGRAM_DATABASE`. -/
structure RecProgram where
  pid : String
  name : String
  duration_weeks : ℕ
  base_score : ℚ
  suited_for : List String
deriving DecidableEq, Inhabited

def programDatabase : List RecProgram :=
  [⟨"substance_abuse_intensive", "Intensive Drug Rehabilitation Program", 12, 0.85,
    ["substance_abuse", "behavioral"]⟩,
   ⟨"substance_abuse_standard", "Standard Substance Abuse Program", 8, 0.75,
    ["substance_abuse"]⟩,
   ⟨"mental_health_therapy", "Trauma-Informed Therapy Program", 10, 0.88,
    ["mental_health", "general"]⟩,
   ⟨"vocational_training", "Vocational Skills Training", 16, 0.72,
    ["general", "educational_deficit"]⟩,
   ⟨"education_program", "GED Preparation Program", 20, 0.68,
    ["educational_deficit", "general"]⟩,
   ⟨"anger_management", "Anger Management & Conflict Resolution", 10, 0.82,
    ["behavioral", "violent"]⟩,
   ⟨"cognitive_behavioral", "Cognitive Behavioral Therapy (CBT)", 8, 0.78,
    ["behavioral", "mental_health"]⟩,
   ⟨"family_counseling", "Family Reintegration & Counseling", 12, 0.70,
    ["general", "mental_health"]⟩]

def suitabilityPairs : List (String × ℤ) :=
  [("substance_abuse", 0), ("mental_health", 1), ("behavioral", 2),
   ("educational_deficit", 3), ("general", 4)]

/-- `suitability_map.get(request.suitabilityGroup.lower(), 4)`. -/
def suitabilityEncode (s : String) : ℤ :=
  (suitabilityPairs.lookup (pyLower s)).getD 4

def reversePairs : List (ℤ × String) :=
  [(0, "substance_abuse"), (1, "mental_health"), (2, "behavioral"),
   (3, "educational_deficit"), (4, "general")]

/-- `reverse_map.get(int(suitability_encoded), 'general')`. -/
def suitabilityDecode (n : ℤ) : String := (reversePairs.lookup n).getD ("general")

/-- `RecommendationService._extract_features`: defaults 50/70/60 for the
three profile features, then the risk score and the suitability
encoding. -/
def extractRecFeatures (req : RecRequest) : List ℚ :=
  [req.pfCompletion.getD 50, req.pfAttendance.getD 70, req.pfBehavioral.getD 60,
   req.riskScore, ((suitabilityEncode req.suitabilityGroup : ℤ) : ℚ)]

/-- `RecommendationService._calculate_suitability_boost`. -/
def suitabilityBoost (enc : ℤ) (suitedFor : List String) : ℚ :=
  if suitabilityDecode enc ∈ suitedFor then 1 else 0.6

/-- `RecommendationService._score_programs`: per program the external
model's probability on the (scaled) features when an artifact is loaded,
else the program's base score, blended `0.7/0.3` with the suitability
boost read back from feature entry 4, capped at 1. -/
def scorePrograms (mlModel : Option (List ℚ → ℚ)) (features : List ℚ) :
    List (String × ℚ) :=
  programDatabase.map fun p =>
    let ml := match mlModel with
      | some f => f features
      | none => p.base_score
    let boost := suitabilityBoost (pyInt (features.getD 4 0)) p.suited_for
    (p.pid, min 1 (ml * 0.7 + boost * 0.3))

structure ProgramRecommendation where
  programType : String
  programName : String
  durationWeeks : ℤ
  score : ℚ
  reason : String
deriving DecidableEq, Inhabited

/-- `RecommendationService._create_recommendations`: stable sort by score
descending; duration stretched by 1.2 (then truncated) when
`riskScore > 0.7`. -/
def createRecommendations (scores : List (String × ℚ)) (riskScore : ℚ) :
    List ProgramRecommendation :=
  (scores.mergeSort (fun a b => b.2 ≤ a.2)).map fun pr =>
    let info := (programDatabase.find? (fun p => p.pid == pr.1)).getD default
    { programType := pr.1
      programName := info.name
      durationWeeks :=
        if 0.7 < riskScore then pyInt ((info.duration_weeks : ℚ) * 1.2)
        else (info.duration_weeks : ℤ)
      score := pr.2
      reason := "Recommended based on suitability match and ML model score. Program focuses on "
        ++ (String.intercalate (", ") info.suited_for) ++ "." }

/-- The `programs` component of `generate_recommendations`: the top three
scored programs.  (The response's free-text explanation echoes the raw
suitability-group string and is outside the claim.) -/
def recommendationPrograms (mlModel : Option (List ℚ → ℚ)) (req : RecRequest) :
    List ProgramRecommendation :=
  (createRecommendations (scorePrograms mlModel (extractRecFeatures req)) req.riskScore).take 3

/-! ## Concrete inputs used by witnesses -/

/-- A recommendation request whose suitability group is none of the five
known categories. -/
def reqUnknownGroup : RecRequest where
  inmateId := "INM001"
  pfCompletion := none
  pfAttendance := none
  pfBehavioral := none
  suitabilityGroup := "Unknown_Group"
  riskScore := 0.5

/-- A profile-generator stream assignment with every draw zero. -/
def zeroProfileRng : ProfileRng where
  crimeIdx := fun _ => 0
  bookingU := fun _ => 0
  ageEps := fun _ => 0
  genderU := fun _ => 0
  sentenceEps := fun _ => 0
  servedU := fun _ => 0
  riskEps := fun _ => 0
  behaviorEps := fun _ => 0
  disciplineEps := fun _ => 0
  substanceU := fun _ => 0
  mentalU := fun _ => 0
  programsU := fun _ => 0
  enrolledU := fun _ => 0
  attendEps := fun _ => 0
  priorsU := fun _ => 0
  violationsU := fun _ => 0
  educationU := fun _ => 0
  securityU := fun _ => 0
  facilityU := fun _ => 0
  blockU := fun _ => 0
  cellU := fun _ => 0
  medicalU := fun _ => 0

/-- A complete eligibility request whose optional `programs_completed`
is absent. -/
def reqComplete : RawEligibilityRequest where
  age := some 32
  gender := none
  crime_type := none
  sentence_length_months := some 60
  time_served_months := some 24
  behavior_score := some 75.5
  discipline_score := some 82.3
  risk_score := some 0.42
  programs_completed := none
  programs_enrolled := none
  total_attendance_rate := none
  institutional_violations := none
  total_incidents := none
  points_deducted := none
  has_substance_abuse := none
  has_mental_health_issues := none
  education_level := none
  prior_convictions := none
  inmate_id := none

/-- The same request with the required `risk_score` missing. -/
def reqMissingRisk : RawEligibilityRequest :=
  { reqComplete with risk_score := none }

/-- A hand-written inmate row used to instantiate generator theorems. -/
def sampleInmate : InmateProfile where
  inmate_id := "INM900000"
  booking_number := "BK202000001"
  first_name := "FirstName0"
  last_name := "LastName0"
  date_of_birth := -10000
  gender := "Male"
  age := 35
  education_level := "GED"
  sentence_length_months := 36
  time_served_months := 12
  remaining_sentence_months := 24
  crime_type := "drug_trafficking"
  security_level := "Medium"
  facility := "Colombo_Main"
  block := "A"
  cell_number := "1"
  behavior_score := 72
  discipline_score := 70
  risk_score := 0.42
  prior_convictions := 0
  institutional_violations := 0
  has_substance_abuse := false
  has_mental_health_issues := false
  requires_medical_attention := false
  programs_completed := 2
  programs_enrolled := 1
  total_attendance_rate := 0.8
  admission_date := -360
  parole_eligibility_date := none
  zone := "Western"

def inmateLowBehavior : InmateProfile := { sampleInmate with behavior_score := 30 }

def inmateShortServed : InmateProfile := { sampleInmate with time_served_months := 2 }

def zeroHLRng : HLRng where
  numU := fun _ => 0
  typeU := fun _ _ => 0
  statusU := fun _ _ => 0
  durU := fun _ _ => 0
  returnU := fun _ _ => 0
  incidentU := fun _ _ => 0

def zeroOutRng : OutRng where
  progU := fun _ _ => 0
  daysU := fun _ _ => 0
  statusU := fun _ _ => 0
  complR := fun _ _ => 0
  attendR := fun _ _ => 0
  certU := fun _ _ => 0

def zeroCounselRng : CounselRng where
  sentU := fun _ _ => 0
  noteU := fun _ _ => 0
  counselorU := fun _ _ => 0
  sessionU := fun _ _ => 0
  durationU := fun _ _ => 0
  ratingU := fun _ _ => 0

def zeroTrainRng : TrainRng where
  partU := fun _ => 0
  numU := fun _ => 0
  progU := fun _ _ => 0
  skillU := fun _ _ => 0
  hoursR := fun _ _ => 0
  complU := fun _ _ => 0
  perfEps := fun _ _ => 0

/-- Behavioral streams that draw exactly one incident per inmate. -/
def oneBehRng : BehRng where
  countU := fun _ => 1
  sevU := fun _ _ => 0
  typeU := fun _ _ => 0
  typeU2 := fun _ _ => 0
  actionU := fun _ _ => 0
  resolvedU := fun _ _ => 0

/-- Stream assignment for a one-inmate full generation run. -/
def wAllRng : AllRng where
  profile := zeroProfileRng
  behavioral := oneBehRng
  outcomes := zeroOutRng
  counseling := zeroCounselRng
  earlyNoise := fun _ => 0
  training := zeroTrainRng
  homeLeave := zeroHLRng
  stationOccU := fun _ => 0

/-! ## Theorems about the scoring service -/

/-- Bound used to place `exp (-0.64)` above `3/7`. -/
theorem exp_neg_064_gt : (3 / 7 : ℝ) < Real.exp (-0.64) := by
  have h04 : (0.96 : ℝ) ≤ Real.exp (-0.04) := by
    have h := Real.add_one_le_exp (-0.04 : ℝ)
    linarith
  have hpow : (0.96 : ℝ) ^ 16 ≤ Real.exp (-0.04) ^ 16 :=
    pow_le_pow_left₀ (by norm_num) h04 16
  have hexp : Real.exp (-0.64 : ℝ) = Real.exp (-0.04) ^ 16 := by
    rw [← Real.exp_nat_mul]
    norm_num
  have hval : (3 / 7 : ℝ) < (0.96 : ℝ) ^ 16 := by norm_num
  rw [hexp]
  linarith

/-- Bound used to place `exp (-0.64)` below `7/13`. -/
theorem exp_neg_064_lt : Real.exp (-0.64 : ℝ) < 7 / 13 := by
  have h04 : (1.04 : ℝ) ≤ Real.exp (0.04 : ℝ) := by
    have h := Real.add_one_le_exp (0.04 : ℝ)
    linarith
  have hpow : (1.04 : ℝ) ^ 16 ≤ Real.exp (0.04 : ℝ) ^ 16 :=
    pow_le_pow_left₀ (by norm_num) h04 16
  have hexp : Real.exp (0.64 : ℝ) = Real.exp (0.04 : ℝ) ^ 16 := by
    rw [← Real.exp_nat_mul]
    norm_num
  have h1 : (13 / 7 : ℝ) < Real.exp (0.64 : ℝ) := by
    have hval : (13 / 7 : ℝ) < (1.04 : ℝ) ^ 16 := by norm_num
    rw [hexp]
    linarith
  have hneg : Real.exp (-0.64 : ℝ) = (Real.exp (0.64 : ℝ))⁻¹ := Real.exp_neg 0.64
  have h2 : (Real.exp (0.64 : ℝ))⁻¹ < ((13 : ℝ) / 7)⁻¹ :=
    inv_strictAnti₀ (by norm_num) h1
  rw [hneg]
  calc (Real.exp (0.64 : ℝ))⁻¹ < ((13 : ℝ) / 7)⁻¹ := h2
    _ = 7 / 13 := by norm_num

/-- The statistical fallback at the C1 feature values reduces to the
logistic value at raw score `0.82`. -/
theorem predictStatistical_c1_eq :
    predictStatistical 80 4 85 = 1 / (1 + Real.exp (-0.64 : ℝ)) := by
  have hmin : min (4 : ℝ) 5 = 4 := min_eq_left (by norm_num)
  have harg : ((80 : ℝ) / 100) * 0.35 + (min (4 : ℝ) 5 / 5) * 0.25
      + ((85 : ℝ) / 100) * 0.40 = 0.82 := by
    rw [hmin]
    norm_num
  rw [predictStatistical, sigmoid, harg]
  norm_num

/-- C1 (counterexample): on the feature values behavior=80,
program-completion=4, discipline=85, the statistical fallback
(weights 0.35/0.25/0.40 followed by the sigmoid with shift 0.5,
scale 2.0) does NOT return a score strictly greater than 0.7: its value is
`1/(1+e^{-0.64}) ≈ 0.6548`. -/
theorem c1_fallback_score_not_gt_07 : ¬ ((0.7 : ℝ) < predictStatistical 80 4 85) := by
  rw [predictStatistical_c1_eq]
  intro h
  have ht := exp_neg_064_gt
  have hpos : (0 : ℝ) < 1 + Real.exp (-0.64 : ℝ) := by positivity
  have hlt : 1 / (1 + Real.exp (-0.64 : ℝ)) < 0.7 := by
    rw [div_lt_iff₀ hpos]
    nlinarith
  linarith

/-- C1 (amended): on the same feature values the statistical fallback
returns a score strictly greater than 0.65 (and, by the counterexample,
not greater than 0.7). -/
theorem c1_fallback_score_gt_065 : (0.65 : ℝ) < predictStatistical 80 4 85 := by
  rw [predictStatistical_c1_eq]
  have ht := exp_neg_064_lt
  have hpos : (0 : ℝ) < 1 + Real.exp (-0.64 : ℝ) := by positivity
  rw [lt_div_iff₀ hpos]
  nlinarith

/-- C8: both scoring strategies return values in `[0,1]`: the statistical
fallback for every real feature triple, and the model path for every
probability row whose entries lie in `[0,1]` (the external classifier's
contract); the two therefore share output type and range. -/
theorem c8_scoring_range :
    (∀ b p d : ℝ, 0 ≤ predictStatistical b p d ∧ predictStatistical b p d ≤ 1) ∧
    (∀ proba : List ℝ, (∀ q ∈ proba, 0 ≤ q ∧ q ≤ 1) →
      0 ≤ predictWithModel proba ∧ predictWithModel proba ≤ 1) := by
  constructor
  · intro b p d
    rw [predictStatistical, sigmoid]
    have he := Real.exp_pos (-(2.0 : ℝ) * ((b / 100) * 0.35
      + (min p 5 / 5) * 0.25 + (d / 100) * 0.40 - 0.5))
    constructor
    · positivity
    · rw [div_le_one (by linarith)]
      linarith
  · intro proba hproba
    rw [predictWithModel]
    by_cases h : 1 < proba.length
    · rw [List.getD_eq_getElem proba _ h]
      exact hproba _ (List.getElem_mem h)
    · rw [List.getD_eq_default proba _ (by omega)]
      norm_num

/-- Witness for C8: concrete instantiation with a two-entry probability
row, discharging the range hypothesis. -/
theorem c8_scoring_range_witness :
    0 ≤ predictWithModel [(0.3 : ℝ), 0.7] ∧ predictWithModel [(0.3 : ℝ), 0.7] ≤ 1 :=
  c8_scoring_range.2 [(0.3 : ℝ), 0.7] (by
    intro q hq
    simp only [List.mem_cons, List.not_mem_nil, or_false] at hq
    rcases hq with h | h <;> rw [h] <;> norm_num)

/-! ## Theorems about eligibility request validation -/

/-- C2: the eligibility feature extraction succeeds (never raises) whenever
the three required fields are present — any missing optional field is
replaced by its default, in particular a missing `programs_completed`
contributes 0 — and is a validation error whenever `behavior_score`,
`discipline_score` or `risk_score` is missing. -/
theorem c2_extract_required_optional :
    ∀ r : RawEligibilityRequest,
      ((r.behavior_score.isSome ∧ r.discipline_score.isSome ∧ r.risk_score.isSome) →
        ∃ v, extractEligibilityFeatures r = .ok v ∧
          (r.programs_completed = none → v.getD 3 0 = 0)) ∧
      ((r.behavior_score.isNone ∨ r.discipline_score.isNone ∨ r.risk_score.isNone) →
        extractEligibilityFeatures r = .error ("validation error: missing required field")) := by
  intro r
  constructor
  · rintro ⟨hb, hd, hk⟩
    obtain ⟨b, hb'⟩ := Option.isSome_iff_exists.1 hb
    obtain ⟨d, hd'⟩ := Option.isSome_iff_exists.1 hd
    obtain ⟨k, hk'⟩ := Option.isSome_iff_exists.1 hk
    simp only [extractEligibilityFeatures, hb', hd', hk']
    exact ⟨_, rfl, fun h => by simp [h]⟩
  · intro h
    cases hb' : r.behavior_score <;> cases hd' : r.discipline_score <;>
      cases hk' : r.risk_score <;>
      simp_all [extractEligibilityFeatures]

/-- Witness for C2: a concrete complete request (with
`programs_completed` absent) extracts successfully with default 0, and the
same request with `risk_score` removed is rejected. -/
theorem c2_extract_required_optional_witness :
    (∃ v, extractEligibilityFeatures reqComplete = .ok v ∧
      (reqComplete.programs_completed = none → v.getD 3 0 = 0)) ∧
    extractEligibilityFeatures reqMissingRisk
      = .error ("validation error: missing required field") :=
  ⟨(c2_extract_required_optional reqComplete).1 (by decide),
   (c2_extract_required_optional reqMissingRisk).2 (by decide)⟩

/-! ## Rounding helpers -/

/-- Mathlib `round` on `ℚ` is monotone. -/
theorem round_rat_mono {a b : ℚ} (h : a ≤ b) : round a ≤ round b := by
  rw [round_eq, round_eq]
  exact Int.floor_le_floor (by linarith)

theorem round_rat_intCast_le {x : ℚ} {m : ℤ} (h : (m : ℚ) ≤ x) : m ≤ round x := by
  have h2 := round_rat_mono h
  rwa [round_intCast] at h2

theorem round_rat_le_intCast {x : ℚ} {m : ℤ} (h : x ≤ (m : ℚ)) : round x ≤ m := by
  have h2 := round_rat_mono h
  rwa [round_intCast] at h2

theorem round2_nonneg {x : ℚ} (h : 0 ≤ x) : 0 ≤ round2 x := by
  have h1 : (0 : ℤ) ≤ round (x * 100) := round_rat_intCast_le (by push_cast; linarith)
  rw [round2]
  have h2 : ((0 : ℤ) : ℚ) ≤ ((round (x * 100) : ℤ) : ℚ) := Int.cast_le.2 h1
  push_cast at h2
  linarith

theorem round2_le_hundred {x : ℚ} (h : x ≤ 100) : round2 x ≤ 100 := by
  have h1 : round (x * 100) ≤ (10000 : ℤ) := round_rat_le_intCast (by push_cast; linarith)
  rw [round2]
  have h2 : ((round (x * 100) : ℤ) : ℚ) ≤ ((10000 : ℤ) : ℚ) := Int.cast_le.2 h1
  push_cast at h2
  linarith

theorem round3_nonneg {x : ℚ} (h : 0 ≤ x) : 0 ≤ round3 x := by
  have h1 : (0 : ℤ) ≤ round (x * 1000) := round_rat_intCast_le (by push_cast; linarith)
  rw [round3]
  have h2 : ((0 : ℤ) : ℚ) ≤ ((round (x * 1000) : ℤ) : ℚ) := Int.cast_le.2 h1
  push_cast at h2
  linarith

theorem round3_le_one {x : ℚ} (h : x ≤ 1) : round3 x ≤ 1 := by
  have h1 : round (x * 1000) ≤ (1000 : ℤ) := round_rat_le_intCast (by push_cast; linarith)
  rw [round3]
  have h2 : ((round (x * 1000) : ℤ) : ℚ) ≤ ((1000 : ℤ) : ℚ) := Int.cast_le.2 h1
  push_cast at h2
  linarith

theorem round3_ge_riskLo {x : ℚ} (h : 1/20 ≤ x) : 1/20 ≤ round3 x := by
  have h1 : (50 : ℤ) ≤ round (x * 1000) := round_rat_intCast_le (by push_cast; linarith)
  rw [round3]
  have h2 : ((50 : ℤ) : ℚ) ≤ ((round (x * 1000) : ℤ) : ℚ) := Int.cast_le.2 h1
  push_cast at h2
  linarith

theorem round3_le_riskHi {x : ℚ} (h : x ≤ 19/20) : round3 x ≤ 19/20 := by
  have h1 : round (x * 1000) ≤ (950 : ℤ) := round_rat_le_intCast (by push_cast; linarith)
  rw [round3]
  have h2 : ((round (x * 1000) : ℤ) : ℚ) ≤ ((950 : ℤ) : ℚ) := Int.cast_le.2 h1
  push_cast at h2
  linarith

/-- Clipping is the identity inside the clipping interval. -/
theorem clipQ_eq_self {lo hi x : ℚ} (h1 : lo ≤ x) (h2 : x ≤ hi) :
    clipQ lo hi x = x := by
  rw [clipQ, max_eq_right h1, min_eq_right h2]

/-- Python `int()` is `⌊·⌋` on nonnegative arguments. -/
theorem pyInt_eq_floor {q : ℚ} (h : 0 ≤ q) : pyInt q = ⌊q⌋ := by
  rw [pyInt, if_pos h]

/-! ## Structural facts about one generated profile -/

theorem servedAt_pos (g : ProfileRng) (i : ℕ) : 1 ≤ servedAt g i := by
  rw [servedAt]
  omega

theorem sentenceAt_ge_six (g : ProfileRng) (i : ℕ) : 6 ≤ sentenceAt g i :=
  le_max_left _ _

theorem servedAt_le_sentenceAt (g : ProfileRng) (i : ℕ) :
    servedAt g i ≤ sentenceAt g i := by
  have h6 := sentenceAt_ge_six g i
  have hpos : 0 < (sentenceAt g i).toNat := by omega
  have hmod : g.servedU i % (sentenceAt g i).toNat < (sentenceAt g i).toNat :=
    Nat.mod_lt _ hpos
  rw [servedAt]
  omega

theorem behaviorRawAt_nonneg (g : ProfileRng) (i : ℕ) : 0 ≤ behaviorRawAt g i :=
  le_min (by norm_num) (le_max_left _ _)

theorem behaviorRawAt_le_hundred (g : ProfileRng) (i : ℕ) :
    behaviorRawAt g i ≤ 100 := min_le_left _ _

theorem riskRawAt_ge (g : ProfileRng) (i : ℕ) : 1/20 ≤ riskRawAt g i := by
  refine le_min (by norm_num) ?_
  calc (1/20 : ℚ) = 0.05 := by norm_num
    _ ≤ _ := le_max_left _ _

theorem riskRawAt_le (g : ProfileRng) (i : ℕ) : riskRawAt g i ≤ 19/20 := by
  calc riskRawAt g i ≤ 0.95 := min_le_left _ _
    _ = 19/20 := by norm_num

theorem timeFactorAt_nonneg (g : ProfileRng) (i : ℕ) : 0 ≤ timeFactorAt g i := by
  rw [timeFactorAt]
  have h1 := servedAt_pos g i
  have h2 := sentenceAt_ge_six g i
  apply div_nonneg
  · exact_mod_cast (by omega : (0:ℤ) ≤ servedAt g i)
  · exact_mod_cast (by omega : (0:ℤ) ≤ sentenceAt g i)

/-! ## Theorems about the generated profile table -/

/-- Projection of the date-of-birth field of one generated row. -/
theorem makeProfile_dob (now : ℤ) (g : ProfileRng) (i : ℕ) :
    (makeProfile now g i).date_of_birth
      = now - max 18 (min 70 (pyInt (normalQ 35 12 (g.ageEps i)))) * 365 := rfl

/-- C4 (counterexample): with the seed (hence every stream) and the count
held fixed, running the profile generator at two different wall-clock
dates yields different tables — the date-derived fields move with
`datetime.now()` — so repeated runs are not unconditionally
byte-identical. -/
theorem c4_not_identical_across_dates :
    generateInmateProfiles 1 zeroProfileRng 0 ≠ generateInmateProfiles 1 zeroProfileRng 365 := by
  intro h
  have h2 := congrArg (fun l => (l.headI).date_of_birth) h
  simp only [generateInmateProfiles, List.range_succ, List.range_zero, List.nil_append,
    List.map_cons, List.map_nil, List.headI_cons] at h2
  rw [makeProfile_dob, makeProfile_dob] at h2
  omega

/-- C4 (amended): for a fixed stream assignment (fixed seed) and count,
the profile table is byte-identical across runs in every field except the
three wall-clock-derived date fields (`date_of_birth`, `admission_date`,
`parole_eligibility_date`); equivalently, the run date is the only other
input, so two runs observing the same current date are identical. -/
theorem c4_deterministic_up_to_dates :
    ∀ (n : ℕ) (g : ProfileRng) (t₁ t₂ : ℤ),
      (generateInmateProfiles n g t₁).map stripDates
        = (generateInmateProfiles n g t₂).map stripDates := by
  intro n g t₁ t₂
  simp only [generateInmateProfiles, List.map_map]
  apply List.map_congr_left
  intro i _
  rfl

/-- C6: every generated profile satisfies the range invariants
`0 ≤ behavior_score ≤ 100`, `0 ≤ risk_score ≤ 1`,
`remaining_sentence_months ≥ 0`, and
`remaining_sentence_months = sentence_length_months - time_served_months`. -/
theorem c6_profile_range_invariants :
    ∀ (n : ℕ) (g : ProfileRng) (now : ℤ) (p : InmateProfile),
      p ∈ generateInmateProfiles n g now →
      (0 ≤ p.behavior_score ∧ p.behavior_score ≤ 100) ∧
      (0 ≤ p.risk_score ∧ p.risk_score ≤ 1) ∧
      0 ≤ p.remaining_sentence_months ∧
      p.remaining_sentence_months
        = p.sentence_length_months - p.time_served_months := by
  intro n g now p hp
  rw [generateInmateProfiles] at hp
  obtain ⟨i, _, rfl⟩ := List.mem_map.1 hp
  refine ⟨⟨?_, ?_⟩, ⟨?_, ?_⟩, ?_, rfl⟩
  · exact round2_nonneg (behaviorRawAt_nonneg g i)
  · exact round2_le_hundred (behaviorRawAt_le_hundred g i)
  · exact round3_nonneg (le_trans (by norm_num) (riskRawAt_ge g i))
  · exact round3_le_one (le_trans (riskRawAt_le g i) (by norm_num))
  · have := servedAt_le_sentenceAt g i
    show (0 : ℤ) ≤ sentenceAt g i - servedAt g i
    omega

/-- Witness for C6: the invariants instantiated on the first row of a
concrete generation run. -/
theorem c6_profile_range_invariants_witness :
    (0 ≤ ((generateInmateProfiles 1 zeroProfileRng 0).headI).behavior_score ∧
      ((generateInmateProfiles 1 zeroProfileRng 0).headI).behavior_score ≤ 100) ∧
    (0 ≤ ((generateInmateProfiles 1 zeroProfileRng 0).headI).risk_score ∧
      ((generateInmateProfiles 1 zeroProfileRng 0).headI).risk_score ≤ 1) ∧
    0 ≤ ((generateInmateProfiles 1 zeroProfileRng 0).headI).remaining_sentence_months ∧
    ((generateInmateProfiles 1 zeroProfileRng 0).headI).remaining_sentence_months
      = ((generateInmateProfiles 1 zeroProfileRng 0).headI).sentence_length_months
        - ((generateInmateProfiles 1 zeroProfileRng 0).headI).time_served_months :=
  c6_profile_range_invariants 1 zeroProfileRng 0 _
    (by simp [generateInmateProfiles, List.range_succ])

/-! ## Field projections of one generated row -/

theorem makeProfile_crime_type (now : ℤ) (g : ProfileRng) (i : ℕ) :
    (makeProfile now g i).crime_type = (crimeAt g i).name := rfl

theorem makeProfile_risk (now : ℤ) (g : ProfileRng) (i : ℕ) :
    (makeProfile now g i).risk_score = round3 (riskRawAt g i) := rfl

theorem makeProfile_behavior (now : ℤ) (g : ProfileRng) (i : ℕ) :
    (makeProfile now g i).behavior_score = round2 (behaviorRawAt g i) := rfl

theorem makeProfile_served (now : ℤ) (g : ProfileRng) (i : ℕ) :
    (makeProfile now g i).time_served_months = servedAt g i := rfl

theorem makeProfile_sentence (now : ℤ) (g : ProfileRng) (i : ℕ) :
    (makeProfile now g i).sentence_length_months = sentenceAt g i := rfl

theorem makeProfile_programs (now : ℤ) (g : ProfileRng) (i : ℕ) :
    (makeProfile now g i).programs_completed
      = pyInt (timeFactorAt g i * ((randint 0 5 (g.programsU i) : ℕ) : ℚ)) := rfl

/-- Looking up the violence weight of the drawn crime type recovers the
drawn profile's weight (crime-type names in the catalog are distinct). -/
theorem violenceRiskOf_crimeAt (g : ProfileRng) (i : ℕ) :
    violenceRiskOf (crimeAt g i).name = (crimeAt g i).violence_risk := by
  have h : g.crimeIdx i % crimeProfiles.length < crimeProfiles.length :=
    Nat.mod_lt _ (by decide)
  rw [crimeAt]
  set k := g.crimeIdx i % crimeProfiles.length with hk
  clear_value k
  have h8 : k < 8 := by simpa [crimeProfiles] using h
  interval_cases k <;> rfl

/-- C9: every generated profile's derived attributes satisfy the spec
formulas: `risk_score = clip(0.3 + violence_risk*0.4 + noise, 0.05, 0.95)`,
`behavior_score = clip(40 + time_factor*30 + noise, 0, 100)` with
`time_factor = time_served/sentence_length`, and
`programs_completed = floor(time_factor * uniform_int(0,5))`. -/
theorem c9_derived_attribute_formulas :
    ∀ (n : ℕ) (g : ProfileRng) (now : ℤ) (p : InmateProfile),
      p ∈ generateInmateProfiles n g now →
      (∃ e, p.risk_score
          = clipQ 0.05 0.95 (0.3 + violenceRiskOf p.crime_type * 0.4 + e)) ∧
      (∃ e, p.behavior_score
          = clipQ 0 100
              (40 + (p.time_served_months : ℚ) / (p.sentence_length_months : ℚ) * 30 + e)) ∧
      (∃ u : ℕ, u ≤ 5 ∧ p.programs_completed
          = ⌊(p.time_served_months : ℚ) / (p.sentence_length_months : ℚ) * (u : ℚ)⌋) := by
  intro n g now p hp
  rw [generateInmateProfiles] at hp
  obtain ⟨i, _, rfl⟩ := List.mem_map.1 hp
  rw [makeProfile_risk, makeProfile_behavior, makeProfile_programs, makeProfile_crime_type,
    makeProfile_served, makeProfile_sentence, violenceRiskOf_crimeAt]
  have htf : (servedAt g i : ℚ) / (sentenceAt g i : ℚ) = timeFactorAt g i := rfl
  rw [htf]
  refine ⟨⟨round3 (riskRawAt g i) - (0.3 + (crimeAt g i).violence_risk * 0.4), ?_⟩,
    ⟨round2 (behaviorRawAt g i) - (40 + timeFactorAt g i * 30), ?_⟩,
    ⟨randint 0 5 (g.programsU i), ?_, ?_⟩⟩
  · have h1 := round3_ge_riskLo (riskRawAt_ge g i)
    have h2 := round3_le_riskHi (riskRawAt_le g i)
    rw [show (0.3 : ℚ) + (crimeAt g i).violence_risk * 0.4
        + (round3 (riskRawAt g i) - (0.3 + (crimeAt g i).violence_risk * 0.4))
        = round3 (riskRawAt g i) from by ring]
    exact (clipQ_eq_self (le_trans (by norm_num) h1) (le_trans h2 (by norm_num))).symm
  · have h1 := round2_nonneg (behaviorRawAt_nonneg g i)
    have h2 := round2_le_hundred (behaviorRawAt_le_hundred g i)
    rw [show (40 : ℚ) + timeFactorAt g i * 30
        + (round2 (behaviorRawAt g i) - (40 + timeFactorAt g i * 30))
        = round2 (behaviorRawAt g i) from by ring]
    exact (clipQ_eq_self h1 h2).symm
  · rw [randint]
    omega
  · exact pyInt_eq_floor (mul_nonneg (timeFactorAt_nonneg g i) (by positivity))

/-- Witness for C9: the formulas instantiated on the first row of a
concrete generation run. -/
theorem c9_derived_attribute_formulas_witness :
    (∃ e, ((generateInmateProfiles 1 zeroProfileRng 0).headI).risk_score
        = clipQ 0.05 0.95
            (0.3 + violenceRiskOf ((generateInmateProfiles 1 zeroProfileRng 0).headI).crime_type
              * 0.4 + e)) ∧
    (∃ e, ((generateInmateProfiles 1 zeroProfileRng 0).headI).behavior_score
        = clipQ 0 100
            (40 + (((generateInmateProfiles 1 zeroProfileRng 0).headI).time_served_months : ℚ)
              / (((generateInmateProfiles 1 zeroProfileRng 0).headI).sentence_length_months : ℚ)
              * 30 + e)) ∧
    (∃ u : ℕ, u ≤ 5 ∧ ((generateInmateProfiles 1 zeroProfileRng 0).headI).programs_completed
        = ⌊(((generateInmateProfiles 1 zeroProfileRng 0).headI).time_served_months : ℚ)
            / (((generateInmateProfiles 1 zeroProfileRng 0).headI).sentence_length_months : ℚ)
            * (u : ℚ)⌋) :=
  c9_derived_attribute_formulas 1 zeroProfileRng 0 _
    (by simp [generateInmateProfiles, List.range_succ])

/-! ## Provenance of child records: ids are drawn from the input table -/

theorem mem_goBehavioral {g : BehRng} {r : BehavioralRecord} :
    ∀ {i rid : ℕ} {ms : List InmateProfile}, r ∈ goBehavioral g i rid ms →
      ∃ m ∈ ms, r.inmate_id = m.inmate_id := by
  intro i rid ms
  induction ms generalizing i rid with
  | nil => intro h; simp [goBehavioral] at h
  | cons m rest ih =>
    intro h
    simp only [goBehavioral] at h
    rcases List.mem_append.1 h with h1 | h2
    · obtain ⟨k, _, rfl⟩ := List.mem_map.1 h1
      exact ⟨m, List.mem_cons_self m rest, rfl⟩
    · obtain ⟨m', hm', hid⟩ := ih h2
      exact ⟨m', List.mem_cons_of_mem m hm', hid⟩

theorem mem_goOutcomes {g : OutRng} {r : ProgramOutcome} :
    ∀ {i oid : ℕ} {ms : List InmateProfile}, r ∈ goOutcomes g i oid ms →
      ∃ m ∈ ms, r.inmate_id = m.inmate_id := by
  intro i oid ms
  induction ms generalizing i oid with
  | nil => intro h; simp [goOutcomes] at h
  | cons m rest ih =>
    intro h
    simp only [goOutcomes] at h
    rcases List.mem_append.1 h with h1 | h2
    · obtain ⟨k, _, rfl⟩ := List.mem_map.1 h1
      exact ⟨m, List.mem_cons_self m rest, rfl⟩
    · obtain ⟨m', hm', hid⟩ := ih h2
      exact ⟨m', List.mem_cons_of_mem m hm', hid⟩

theorem mem_goCounseling {g : CounselRng} {avg : ℕ} {r : CounselingNote} :
    ∀ {i nid : ℕ} {ms : List InmateProfile}, r ∈ goCounseling g avg i nid ms →
      ∃ m ∈ ms, r.inmate_id = m.inmate_id := by
  intro i nid ms
  induction ms generalizing i nid with
  | nil => intro h; simp [goCounseling] at h
  | cons m rest ih =>
    intro h
    simp only [goCounseling] at h
    rcases List.mem_append.1 h with h1 | h2
    · obtain ⟨k, _, rfl⟩ := List.mem_map.1 h1
      exact ⟨m, List.mem_cons_self m rest, rfl⟩
    · obtain ⟨m', hm', hid⟩ := ih h2
      exact ⟨m', List.mem_cons_of_mem m hm', hid⟩

theorem mem_goTraining {g : TrainRng} {r : TrainingRecord} :
    ∀ {i tid : ℕ} {ms : List InmateProfile}, r ∈ goTraining g i tid ms →
      ∃ m ∈ ms, r.inmate_id = m.inmate_id := by
  intro i tid ms
  induction ms generalizing i tid with
  | nil => intro h; simp [goTraining] at h
  | cons m rest ih =>
    intro h
    by_cases hp : g.partU i < 0.3
    · simp only [goTraining, if_pos hp] at h
      rcases List.mem_append.1 h with h1 | h2
      · obtain ⟨k, _, rfl⟩ := List.mem_map.1 h1
        exact ⟨m, List.mem_cons_self m rest, rfl⟩
      · obtain ⟨m', hm', hid⟩ := ih h2
        exact ⟨m', List.mem_cons_of_mem m hm', hid⟩
    · simp only [goTraining, if_neg hp] at h
      obtain ⟨m', hm', hid⟩ := ih h
      exact ⟨m', List.mem_cons_of_mem m hm', hid⟩

theorem mem_goHomeLeave {g : HLRng} {r : HomeLeaveRecord} :
    ∀ {i lid : ℕ} {ms : List InmateProfile}, r ∈ goHomeLeave g i lid ms →
      ∃ m ∈ ms, r.inmate_id = m.inmate_id ∧ 50 ≤ m.behavior_score := by
  intro i lid ms
  induction ms generalizing i lid with
  | nil => intro h; simp [goHomeLeave] at h
  | cons m rest ih =>
    intro h
    by_cases hb : m.behavior_score < 50
    · simp only [goHomeLeave, if_pos hb] at h
      obtain ⟨m', hm', hid⟩ := ih h
      exact ⟨m', List.mem_cons_of_mem m hm', hid⟩
    · simp only [goHomeLeave, if_neg hb] at h
      rcases List.mem_append.1 h with h1 | h2
      · obtain ⟨k, _, rfl⟩ := List.mem_map.1 h1
        exact ⟨m, List.mem_cons_self m rest, rfl, not_lt.1 hb⟩
      · obtain ⟨m', hm', hid⟩ := ih h2
        exact ⟨m', List.mem_cons_of_mem m hm', hid⟩

theorem mem_goEarlyRelease {noise : ℕ → ℚ} {r : EarlyReleaseRecord} :
    ∀ {rid : ℕ} {ms : List InmateProfile}, r ∈ goEarlyRelease noise rid ms →
      ∃ m ∈ ms, r.inmate_id = m.inmate_id ∧ 6 ≤ m.time_served_months := by
  intro rid ms
  induction ms generalizing rid with
  | nil => intro h; simp [goEarlyRelease] at h
  | cons m rest ih =>
    intro h
    by_cases hs : m.time_served_months < 6
    · simp only [goEarlyRelease, if_pos hs] at h
      obtain ⟨m', hm', hid⟩ := ih h
      exact ⟨m', List.mem_cons_of_mem m hm', hid⟩
    · simp only [goEarlyRelease, if_neg hs] at h
      rcases List.mem_cons.1 h with h1 | h2
      · subst h1
        exact ⟨m, List.mem_cons_self m rest, rfl, not_lt.1 hs⟩
      · obtain ⟨m', hm', hid⟩ := ih h2
        exact ⟨m', List.mem_cons_of_mem m hm', hid⟩

theorem goHomeLeave_nil_of_low {g : HLRng} :
    ∀ {i lid : ℕ} {ms : List InmateProfile}, (∀ m ∈ ms, m.behavior_score < 50) →
      goHomeLeave g i lid ms = [] := by
  intro i lid ms
  induction ms generalizing i lid with
  | nil => intro _; rfl
  | cons m rest ih =>
    intro h
    have hm := h m (List.mem_cons_self m rest)
    simp only [goHomeLeave, if_pos hm]
    exact ih fun m' hm' => h m' (List.mem_cons_of_mem m hm')

theorem goEarlyRelease_nil_of_short {noise : ℕ → ℚ} :
    ∀ {rid : ℕ} {ms : List InmateProfile}, (∀ m ∈ ms, m.time_served_months < 6) →
      goEarlyRelease noise rid ms = [] := by
  intro rid ms
  induction ms generalizing rid with
  | nil => intro _; rfl
  | cons m rest ih =>
    intro h
    have hm := h m (List.mem_cons_self m rest)
    simp only [goEarlyRelease, if_pos hm]
    exact ih fun m' hm' => h m' (List.mem_cons_of_mem m hm')

/-- C5: no home-leave record references an inmate with behavior below 50
and no early-release assessment references an inmate who served less than
6 months; lists of only-ineligible inmates yield the empty table (a skip,
not an error or placeholder row). -/
theorem c5_conditional_generation :
    ∀ (inmates : List InmateProfile) (hg : HLRng) (noise : ℕ → ℚ),
      (∀ r ∈ generateHomeLeaveRecords inmates hg,
        ∃ m ∈ inmates, r.inmate_id = m.inmate_id ∧ 50 ≤ m.behavior_score) ∧
      (∀ r ∈ generateEarlyReleaseData inmates noise,
        ∃ m ∈ inmates, r.inmate_id = m.inmate_id ∧ 6 ≤ m.time_served_months) ∧
      ((∀ m ∈ inmates, m.behavior_score < 50) →
        generateHomeLeaveRecords inmates hg = []) ∧
      ((∀ m ∈ inmates, m.time_served_months < 6) →
        generateEarlyReleaseData inmates noise = []) := by
  intro inmates hg noise
  exact ⟨fun r hr => mem_goHomeLeave hr, fun r hr => mem_goEarlyRelease hr,
    fun h => goHomeLeave_nil_of_low h, fun h => goEarlyRelease_nil_of_short h⟩

/-- Witness for C5: a single low-behavior inmate yields no home-leave
record and a single short-served inmate yields no assessment. -/
theorem c5_conditional_generation_witness :
    generateHomeLeaveRecords [inmateLowBehavior] zeroHLRng = [] ∧
    generateEarlyReleaseData [inmateShortServed] (fun _ => 0) = [] := by
  constructor
  · refine (c5_conditional_generation [inmateLowBehavior] zeroHLRng (fun _ => 0)).2.2.1 ?_
    intro m hm
    rw [List.mem_singleton] at hm
    subst hm
    norm_num [inmateLowBehavior, sampleInmate]
  · refine (c5_conditional_generation [inmateShortServed] zeroHLRng (fun _ => 0)).2.2.2 ?_
    intro m hm
    rw [List.mem_singleton] at hm
    subst hm
    norm_num [inmateShortServed, sampleInmate]

/-! ## Early release: exactly one assessment per qualifying inmate -/

theorem goEarlyRelease_eq_enumFrom (noise : ℕ → ℚ) :
    ∀ (ms : List InmateProfile) (rid : ℕ),
      goEarlyRelease noise rid ms
        = (List.enumFrom rid
            (ms.filter (fun m => !decide (m.time_served_months < 6)))).map
            (fun p => assessEarlyRelease p.2 (normalQ 0 0.05 (noise p.1)) p.1) := by
  intro ms
  induction ms with
  | nil => intro rid; simp [goEarlyRelease]
  | cons m rest ih =>
    intro rid
    by_cases h : m.time_served_months < 6
    · have hp : (fun m : InmateProfile => !decide (m.time_served_months < 6)) m = false := by
        simp [h]
      simp only [goEarlyRelease, if_pos h, List.filter_cons, hp]
      simp only [Bool.false_eq_true, if_false]
      exact ih rid
    · have hp : (fun m : InmateProfile => !decide (m.time_served_months < 6)) m = true := by
        simp [h]
      simp only [goEarlyRelease, if_neg h, List.filter_cons, hp, if_true]
      rw [ih (rid + 1)]
      rfl

theorem clip01_nonneg (x : ℚ) : 0 ≤ min 1 (max 0 x) :=
  le_min (by norm_num) (le_max_left 0 x)

theorem clip01_le_one (x : ℚ) : min 1 (max 0 x) ≤ 1 := min_le_left _ _

/-- C3: the early-release generator emits exactly one assessment per
inmate with `time_served_months ≥ 6` (it is the indexed map of the
per-inmate assessment over the filtered table), and each assessment's
`eligibility_score` is `clip(weighted formula + noise, 0, 1)` (stored
rounded to 3 decimals — absorbed by the noise term in the first
conjunct), with the three-way recommendation thresholds `>0.7` eligible,
`>0.5` pending, else not eligible, applied to the clipped score. -/
theorem c3_early_release_per_inmate :
    (∀ (inmates : List InmateProfile) (noise : ℕ → ℚ),
      generateEarlyReleaseData inmates noise
        = (List.enumFrom 0
            (inmates.filter (fun m => !decide (m.time_served_months < 6)))).map
            (fun p => assessEarlyRelease p.2 (normalQ 0 0.05 (noise p.1)) p.1)) ∧
    (∀ (m : InmateProfile) (eps : ℚ) (rid : ℕ),
      (∃ e, (assessEarlyRelease m eps rid).eligibility_score
          = clipQ 0 1 (erRawScore m + e)) ∧
      (assessEarlyRelease m eps rid).eligibility_score
          = round3 (clipQ 0 1 (erRawScore m + eps)) ∧
      (assessEarlyRelease m eps rid).recommendation
        = (if 0.7 < clipQ 0 1 (erRawScore m + eps) then "eligible"
          else if 0.5 < clipQ 0 1 (erRawScore m + eps) then "pending_review"
          else "not_eligible")) := by
  constructor
  · intro inmates noise
    exact goEarlyRelease_eq_enumFrom noise inmates 0
  · intro m eps rid
    refine ⟨⟨round3 (min 1 (max 0 (erRawScore m + eps))) - erRawScore m, ?_⟩, rfl, rfl⟩
    have h0 := round3_nonneg (clip01_nonneg (erRawScore m + eps))
    have h1 := round3_le_one (clip01_le_one (erRawScore m + eps))
    rw [show erRawScore m
        + (round3 (min 1 (max 0 (erRawScore m + eps))) - erRawScore m)
        = round3 (min 1 (max 0 (erRawScore m + eps))) from by ring]
    rw [clipQ_eq_self h0 h1]
    rfl

/-! ## Referential integrity of the assembled dataset collection -/

/-- C7: in every full generation run, each `inmate_id` appearing in any of
the six child tables is the id of a row of the inmate profile table. -/
theorem c7_referential_integrity :
    ∀ (n : ℕ) (g : AllRng) (now : ℤ),
      (∀ r ∈ (generateAllDatasets n g now).behavioral_records,
        r.inmate_id
          ∈ (generateAllDatasets n g now).inmate_profiles.map InmateProfile.inmate_id) ∧
      (∀ r ∈ (generateAllDatasets n g now).program_outcomes,
        r.inmate_id
          ∈ (generateAllDatasets n g now).inmate_profiles.map InmateProfile.inmate_id) ∧
      (∀ r ∈ (generateAllDatasets n g now).counseling_notes,
        r.inmate_id
          ∈ (generateAllDatasets n g now).inmate_profiles.map InmateProfile.inmate_id) ∧
      (∀ r ∈ (generateAllDatasets n g now).early_release_data,
        r.inmate_id
          ∈ (generateAllDatasets n g now).inmate_profiles.map InmateProfile.inmate_id) ∧
      (∀ r ∈ (generateAllDatasets n g now).industrial_training,
        r.inmate_id
          ∈ (generateAllDatasets n g now).inmate_profiles.map InmateProfile.inmate_id) ∧
      (∀ r ∈ (generateAllDatasets n g now).home_leave_records,
        r.inmate_id
          ∈ (generateAllDatasets n g now).inmate_profiles.map InmateProfile.inmate_id) := by
  intro n g now
  refine ⟨?_, ?_, ?_, ?_, ?_, ?_⟩
  · intro r hr
    obtain ⟨m, hm, hid⟩ := mem_goBehavioral hr
    exact List.mem_map.2 ⟨m, hm, hid.symm⟩
  · intro r hr
    obtain ⟨m, hm, hid⟩ := mem_goOutcomes hr
    exact List.mem_map.2 ⟨m, hm, hid.symm⟩
  · intro r hr
    obtain ⟨m, hm, hid⟩ := mem_goCounseling hr
    exact List.mem_map.2 ⟨m, hm, hid.symm⟩
  · intro r hr
    obtain ⟨m, hm, hid, _⟩ := mem_goEarlyRelease hr
    exact List.mem_map.2 ⟨m, hm, hid.symm⟩
  · intro r hr
    obtain ⟨m, hm, hid⟩ := mem_goTraining hr
    exact List.mem_map.2 ⟨m, hm, hid.symm⟩
  · intro r hr
    obtain ⟨m, hm, hid, _⟩ := mem_goHomeLeave hr
    exact List.mem_map.2 ⟨m, hm, hid.symm⟩

/-- Witness for C7: the behavioral record emitted by a concrete
one-inmate run references an id present in the profile table. -/
theorem c7_referential_integrity_witness :
    ((generateAllDatasets 1 wAllRng 0).behavioral_records.headI).inmate_id
      ∈ (generateAllDatasets 1 wAllRng 0).inmate_profiles.map InmateProfile.inmate_id := by
  have hm : generateInmateProfiles 1 zeroProfileRng 0 = [makeProfile 0 zeroProfileRng 0] := by
    simp [generateInmateProfiles, List.range_succ]
  have hb : (generateAllDatasets 1 wAllRng 0).behavioral_records
      = [makeBehRecord oneBehRng 0 (makeProfile 0 zeroProfileRng 0) 0 0] := by
    show generateBehavioralRecords (generateInmateProfiles 1 zeroProfileRng 0) oneBehRng = _
    rw [hm]
    show goBehavioral oneBehRng 0 0 [makeProfile 0 zeroProfileRng 0] = _
    simp [goBehavioral, oneBehRng, List.range_succ]
  refine (c7_referential_integrity 1 wAllRng 0).1 _ ?_
  rw [hb]
  simp

/-! ## Theorems about the recommendation service -/

/-- C10: a request whose lowercased suitability group is none of the five
known categories is encoded as 4, the code for `general`, and therefore
produces exactly the program scores and recommendations of the same
request with suitability group `general` (for any model state). -/
theorem c10_unknown_suitability_acts_as_general :
    ∀ (req : RecRequest) (mlModel : Option (List ℚ → ℚ)),
      pyLower req.suitabilityGroup ∉
          ["substance_abuse", "mental_health", "behavioral", "educational_deficit", "general"] →
      suitabilityEncode req.suitabilityGroup = suitabilityEncode ("general") ∧
      scorePrograms mlModel (extractRecFeatures req)
        = scorePrograms mlModel
            (extractRecFeatures { req with suitabilityGroup := "general" }) ∧
      recommendationPrograms mlModel req
        = recommendationPrograms mlModel { req with suitabilityGroup := "general" } := by
  intro req mlModel h
  simp only [List.mem_cons, List.not_mem_nil, or_false, not_or] at h
  obtain ⟨h1, h2, h3, h4, h5⟩ := h
  have b1 : (pyLower req.suitabilityGroup == "substance_abuse") = false :=
    beq_eq_false_iff_ne.mpr h1
  have b2 : (pyLower req.suitabilityGroup == "mental_health") = false :=
    beq_eq_false_iff_ne.mpr h2
  have b3 : (pyLower req.suitabilityGroup == "behavioral") = false :=
    beq_eq_false_iff_ne.mpr h3
  have b4 : (pyLower req.suitabilityGroup == "educational_deficit") = false :=
    beq_eq_false_iff_ne.mpr h4
  have b5 : (pyLower req.suitabilityGroup == "general") = false :=
    beq_eq_false_iff_ne.mpr h5
  have henc : suitabilityEncode req.suitabilityGroup = 4 := by
    rw [suitabilityEncode]
    simp [suitabilityPairs, List.lookup, b1, b2, b3, b4, b5]
  have hgen : suitabilityEncode ("general") = 4 := by decide
  have hfeat : extractRecFeatures req
      = extractRecFeatures { req with suitabilityGroup := "general" } := by
    simp [extractRecFeatures, henc, hgen]
  refine ⟨by rw [henc, hgen], by rw [hfeat], ?_⟩
  rw [recommendationPrograms, recommendationPrograms, hfeat]

/-- Witness for C10: the concrete request with suitability group
`Unknown_Group` scores identically to the `general` request. -/
theorem c10_unknown_suitability_acts_as_general_witness :
    suitabilityEncode reqUnknownGroup.suitabilityGroup = suitabilityEncode ("general") ∧
    scorePrograms none (extractRecFeatures reqUnknownGroup)
      = scorePrograms none
          (extractRecFeatures { reqUnknownGroup with suitabilityGroup := "general" }) ∧
    recommendationPrograms none reqUnknownGroup
      = recommendationPrograms none { reqUnknownGroup with suitabilityGroup := "general" } :=
  c10_unknown_suitability_acts_as_general reqUnknownGroup none (by decide)

end PrisonMgmt
